import Mathlib

/-!
Shallow embedding of `app/main.py` (a small FastAPI service) and proofs
about its spec.  The repository holds two copies of the file; the copy
under `app/` is the complete one (the other is a truncated duplicate of
the `/filter` endpoint), so all definitions here are transcribed from
`app/main.py`.

Modelling conventions:
* cell values are an inductive `Value` (string / number / missing), where
  `missing` stands for pandas `NaN`; pandas comparison semantics
  (`NaN == x` is `False`, even for `x = NaN`) is the function `Value.cmpEq`;
* a `Table` is the column list from the CSV header plus an ordered list of
  rows, each row an association list from column name to `Value`
  (a pandas `DataFrame` as observed by this program);
* the file system, `pd.read_csv` and `DataFrame.to_string` are an
  environment record: `files` is the set of existing paths, `readCsv` maps
  a path to a parsed table or a parse-error message, `renderTable` is the
  textual rendering that `/filter` truncates;
* Python `str.split()` / `' '.join` work on `List Char` here (`words` /
  `unwords`), Python's substring test `w in q` is `occursIn`;
* a handler that can raise an uncaught exception is embedded as
  `Except String r` (`.error` = the exception escapes the handler,
  `.ok` = an ordinary JSON response is returned).
-/

/-- A scalar cell / JSON value as this program distinguishes them:
a string, a number, or missing (`NaN` in pandas / `None` from `dict.get`). -/
inductive Value where
  | str (s : String)
  | num (n : Int)
  | missing
deriving DecidableEq, Repr

/-- The equality the program's comparisons perform (`df[col] == val` in
pandas): equal scalars of the same kind compare true; `missing` (NaN/None)
compares false against everything, itself included. -/
def Value.cmpEq : Value → Value → Bool
  | .str a, .str b => a == b
  | .num a, .num b => a == b
  | _, _ => false

/-- Python `s.lower()`: lower-case every character (character-wise, as
`str.lower` is for the ASCII texts this program handles). -/
def pyLower (s : String) : String := ⟨s.data.map Char.toLower⟩

/-- `df['primary_name'].str.lower()` on one cell: lower-cases a string,
maps a non-string to missing (`NaN`). -/
def Value.lowerStr : Value → Option String
  | .str s => some (pyLower s)
  | _ => none

/-- One row of a DataFrame: an association list column-name ↦ value. -/
def Row : Type := List (String × Value)

instance : DecidableEq Row := by unfold Row; infer_instance

/-- Cell access `row[col]`; a column absent from the row reads as missing
(pandas `NaN`). -/
def Row.get (r : Row) (c : String) : Value :=
  match r.find? (fun p => p.1 == c) with
  | some p => p.2
  | none => .missing

/-- A DataFrame as this program observes it: the header's column list and
the ordered rows. -/
structure Table where
  cols : List String
  rows : List Row
deriving DecidableEq

/-- One entry of `additional_filters`: `f.get("column_name")` and
`f.get("value")`.  An absent `column_name` key is `none`; an absent or
null `value` is `Value.missing`. -/
structure Cond where
  column_name : Option String
  value : Value
deriving DecidableEq, Repr

/-- `df = df[df[col] == val]`: keep the rows whose cell at `col`
compares equal to `val`. -/
def Table.filterEq (t : Table) (c : String) (v : Value) : Table :=
  { t with rows := t.rows.filter (fun r => (r.get c).cmpEq v) }

/-- Lines 44–46 of `main.py`: the mandatory primary_name condition,
skipped when the table has no `primary_name` column. -/
def applyPrimary (pn : Value) (t : Table) : Table :=
  if "primary_name" ∈ t.cols then t.filterEq "primary_name" pn else t

/-- One iteration of the loop at lines 49–53 of `main.py`: an additional
condition is applied only when its column exists in the table
(`if col in df.columns`); a missing `column_name` key (`col = None`)
never matches a column. -/
def applyFilter (t : Table) (f : Cond) : Table :=
  match f.column_name with
  | some c => if c ∈ t.cols then t.filterEq c f.value else t
  | none => t

/-- The loop at lines 49–53 of `main.py` over the whole filter list. -/
def applyFilters (t : Table) (fs : List Cond) : Table :=
  fs.foldl applyFilter t

/-- The equality filter engine of `/filter` (lines 44–53): the mandatory
primary_name condition, then the additional conditions in list order. -/
def filterEngine (t : Table) (pn : Value) (fs : List Cond) : Table :=
  applyFilters (applyPrimary pn t) fs

/-- The predicate one condition contributes when the whole engine is read
as a single conjunction: trivially true when the condition's column is
absent from the table. -/
def condPred (cols : List String) (f : Cond) (r : Row) : Bool :=
  match f.column_name with
  | some c => if c ∈ cols then (r.get c).cmpEq f.value else true
  | none => true

/-- Likewise for the mandatory primary_name condition. -/
def primaryPred (cols : List String) (pn : Value) (r : Row) : Bool :=
  if "primary_name" ∈ cols then (r.get "primary_name").cmpEq pn else true

lemma Table.filterEq_cols (t : Table) (c v) : (t.filterEq c v).cols = t.cols := rfl

lemma applyFilter_cols (t : Table) (f : Cond) : (applyFilter t f).cols = t.cols := by
  unfold applyFilter
  cases f.column_name with
  | none => rfl
  | some c => dsimp only; split <;> rfl

lemma applyFilters_cols (t : Table) (fs : List Cond) : (applyFilters t fs).cols = t.cols := by
  induction fs generalizing t with
  | nil => rfl
  | cons f fs ih => simp [applyFilters, List.foldl_cons] at *; rw [ih, applyFilter_cols]

lemma applyFilter_rows (t : Table) (f : Cond) :
    (applyFilter t f).rows = t.rows.filter (condPred t.cols f) := by
  unfold applyFilter condPred
  cases f.column_name with
  | none => simp
  | some c =>
    dsimp only
    by_cases h : c ∈ t.cols
    · simp [h, Table.filterEq]
    · simp [h, List.filter_true]

lemma applyFilters_rows (t : Table) (fs : List Cond) :
    (applyFilters t fs).rows = t.rows.filter (fun r => fs.all (fun f => condPred t.cols f r)) := by
  induction fs generalizing t with
  | nil => simp [applyFilters]
  | cons f fs ih =>
    have hstep : applyFilters t (f :: fs) = applyFilters (applyFilter t f) fs := rfl
    rw [hstep, ih, applyFilter_cols, applyFilter_rows, List.filter_filter]
    apply List.filter_congr
    intro r _
    simp [Bool.and_comm]

lemma applyPrimary_cols (t : Table) (pn : Value) : (applyPrimary pn t).cols = t.cols := by
  unfold applyPrimary; split <;> rfl

lemma applyPrimary_rows (t : Table) (pn : Value) :
    (applyPrimary pn t).rows = t.rows.filter (primaryPred t.cols pn) := by
  unfold applyPrimary primaryPred
  by_cases h : "primary_name" ∈ t.cols
  · simp [h, Table.filterEq]
  · simp [h, List.filter_true]

lemma filterEngine_cols (t : Table) (pn : Value) (fs : List Cond) :
    (filterEngine t pn fs).cols = t.cols := by
  unfold filterEngine; rw [applyFilters_cols, applyPrimary_cols]

lemma filterEngine_rows (t : Table) (pn : Value) (fs : List Cond) :
    (filterEngine t pn fs).rows =
      t.rows.filter (fun r => primaryPred t.cols pn r &&
        fs.all (fun f => condPred t.cols f r)) := by
  unfold filterEngine
  rw [applyFilters_rows, applyPrimary_cols, applyPrimary_rows, List.filter_filter]
  apply List.filter_congr
  intro r _
  simp [Bool.and_comm]

lemma Table.ext' {t₁ t₂ : Table} (hc : t₁.cols = t₂.cols) (hr : t₁.rows = t₂.rows) :
    t₁ = t₂ := by
  cases t₁; cases t₂; simp_all

/-! ### Text truncator (`limit_token_size`, lines 15–17) -/

/-- A non-whitespace character (token constituent). -/
def nonWS (c : Char) : Bool := !c.isWhitespace

/-- Python `text.split()`: split on runs of whitespace, producing the
maximal non-whitespace runs, no empty tokens. -/
def words : List Char → List (List Char)
  | [] => []
  | c :: cs =>
    if c.isWhitespace then words cs
    else (c :: cs.takeWhile nonWS) :: words (cs.dropWhile nonWS)
termination_by l => l.length
decreasing_by
  · simp
  · simp; exact Nat.lt_succ_of_le (List.dropWhile_sublist nonWS).length_le

/-- Python `' '.join(tokens)`: interleave single spaces. -/
def unwords : List (List Char) → List Char
  | [] => []
  | [w] => w
  | w :: ws => w ++ ' ' :: unwords ws

/-- `limit_token_size` (lines 15–17 of `main.py`): split on whitespace,
keep the first `maxTokens` tokens, rejoin with single spaces. -/
def limit_token_size (text : List Char) (maxTokens : Nat) : List Char :=
  unwords ((words text).take maxTokens)

lemma words_nil : words [] = [] := by rw [words]

lemma dropWhile_eq_self_of_takeWhile_nil {α : Type} {p : α → Bool} {l : List α}
    (h : l.takeWhile p = []) : l.dropWhile p = l := by
  cases l with
  | nil => rfl
  | cons a as =>
    rw [List.takeWhile_cons] at h
    by_cases hp : p a
    · simp [hp] at h
    · simp [List.dropWhile_cons, hp]

lemma words_cons_ws {c : Char} (h : c.isWhitespace) (cs : List Char) :
    words (c :: cs) = words cs := by
  rw [words]; simp [h]

lemma words_cons_nonws {c : Char} (h : ¬ c.isWhitespace) (cs : List Char) :
    words (c :: cs) = (c :: cs.takeWhile nonWS) :: words (cs.dropWhile nonWS) := by
  rw [words]; simp [h]

/-- A word followed by nothing or by a whitespace-headed remainder is the
first token, and tokenisation continues on the remainder. -/
lemma words_word_append {w l : List Char} (hw : w ≠ [])
    (hnw : ∀ c ∈ w, nonWS c) (hl : l.takeWhile nonWS = []) :
    words (w ++ l) = w :: words l := by
  cases w with
  | nil => exact absurd rfl hw
  | cons c w' =>
    have hc : ¬ c.isWhitespace := by
      have := hnw c (List.mem_cons_self c w')
      simpa [nonWS] using this
    have hw' : ∀ c' ∈ w', nonWS c' := fun c' h => hnw c' (List.mem_cons_of_mem c h)
    have htake : (w' ++ l).takeWhile nonWS = w' := by
      rw [List.takeWhile_append_of_pos hw', hl, List.append_nil]
    have hdrop : (w' ++ l).dropWhile nonWS = l := by
      rw [List.dropWhile_append_of_pos hw', dropWhile_eq_self_of_takeWhile_nil hl]
    rw [List.cons_append, words_cons_nonws hc, htake, hdrop]

lemma words_unwords {ws : List (List Char)}
    (h : ∀ w ∈ ws, w ≠ [] ∧ ∀ c ∈ w, nonWS c) :
    words (unwords ws) = ws := by
  induction ws with
  | nil => exact words_nil
  | cons w ws ih =>
    obtain ⟨hw, hnw⟩ := h w (List.mem_cons_self w ws)
    cases ws with
    | nil =>
      have := words_word_append (l := []) hw hnw (by simp)
      simpa [unwords, words_nil] using this
    | cons w' ws' =>
      have hrest : ∀ u ∈ w' :: ws', u ≠ [] ∧ ∀ c ∈ u, nonWS c :=
        fun u hu => h u (List.mem_cons_of_mem w hu)
      have hspace : (' ' :: unwords (w' :: ws')).takeWhile nonWS = [] := by
        simp [List.takeWhile_cons, nonWS]
      have step : unwords (w :: w' :: ws') = w ++ ' ' :: unwords (w' :: ws') := rfl
      rw [step, words_word_append hw hnw hspace,
          words_cons_ws (by simp) (unwords (w' :: ws')), ih hrest]

/-- Every token `words` produces is nonempty and whitespace-free. -/
lemma words_token_shape {l : List Char} {w : List Char} (h : w ∈ words l) :
    w ≠ [] ∧ ∀ c ∈ w, nonWS c := by
  induction l using words.induct with
  | case1 => simp [words_nil] at h
  | case2 c cs hc ih =>
    rw [words_cons_ws hc] at h
    exact ih h
  | case3 c cs hc ih =>
    rw [words_cons_nonws hc] at h
    rcases List.mem_cons.mp h with heq | hmem
    · subst heq
      refine ⟨by simp, ?_⟩
      intro x hx
      rcases List.mem_cons.mp hx with rfl | hx'
      · simpa [nonWS] using hc
      · exact List.mem_takeWhile_imp hx'
    · exact ih hmem

/-- Re-tokenising the truncated text yields exactly the first
`maxTokens` tokens of the input. -/
lemma words_limit_token_size (text : List Char) (n : Nat) :
    words (limit_token_size text n) = (words text).take n := by
  unfold limit_token_size
  exact words_unwords (fun w hw => words_token_shape (List.mem_of_mem_take hw))

/-! ### Query router and endpoint handlers -/

/-- Python's substring test `w in q` on strings: `w` occurs contiguously
in `q`. -/
def occursIn (w q : String) : Bool := decide (w.data <:+: q.data)

/-- The keyword routing map (lines 72–78, duplicated verbatim at lines
153–159), in declared order. -/
def routing_map : List (String × List String) :=
  [("activities", ["activity", "indoor", "outdoor"]),
   ("room-information", ["room", "suite", "deluxe", "guest"]),
   ("pricing", ["price", "cost", "charges", "rate"]),
   ("rules", ["rule", "policy", "checkin", "checkout"]),
   ("queries", ["staff", "hire", "help", "housekeeping"])]

/-- The nested loop at lines 80–87 (and 161–168): visit the categories in
declared order and select the first whose keyword list has a member
occurring in the (already lowered) query. -/
def selected_source (query : String) : Option String :=
  (routing_map.find? (fun p => p.2.any (fun w => occursIn w query))).map Prod.fst

/-- The known-locations list at line 93 (and 174). -/
def known_locations : List String := ["sterling kodai lake", "sterling holidays"]

/-- Line 94 (and 175): first known location occurring in the lowered
query, if any. -/
def matched_location (query : String) : Option String :=
  known_locations.find? (fun loc => occursIn loc query)

/-- Response shape of `/route`: an error payload or the
`{"args": {...}}` object. -/
inductive RouteResponse where
  | err (msg : String)
  | args (primary_name : String) (source : String) (additional_filters : List Cond)
deriving DecidableEq, Repr

/-- `route_query` (lines 64–105).  `dataQuery` is the request body's
`"query"` entry (`none` when absent; `data.get("query", "")` then yields
`""`).  The matched location is computed (lines 93–96) but the response
uses the fixed literal. -/
def route_query (dataQuery : Option String) : RouteResponse :=
  let query := pyLower (dataQuery.getD "")
  if query = "" then .err "Query is required"
  else
    match selected_source query with
    | none => .err "Could not determine source from query"
    | some src =>
      let _ml := (matched_location query).getD "Sterling_Holidays"
      .args "Sterling_Holidays" src []

/-- Response shape of `/filter`: an error payload or the truncated
table text. -/
inductive FilterResponse where
  | err (msg : String)
  | filtered_data (text : List Char)
deriving DecidableEq

/-- The `args` mapping of a `/filter` request: each field is `none` when
the key is absent from the dict. -/
structure FilterArgs where
  primary_name : Option Value
  source : Option String
  additional_filters : Option (List Cond)

/-- The pieces of the outside world `/filter` touches: which paths exist,
what `pd.read_csv` yields at a path (`.error` = parse exception), and the
`DataFrame.to_string(index=False)` rendering. -/
structure FilterEnv where
  files : List String
  readCsv : String → Except String Table
  renderTable : Table → List Char

/-- `filter_information` (lines 19–59): required-field validation in
declared order, file-existence check, CSV read, the equality filter
engine, then rendering truncated to 800 tokens. -/
def filter_information (env : FilterEnv) (args : FilterArgs) : FilterResponse :=
  match args.primary_name with
  | none => .err "primary_name is required"
  | some pn =>
    match args.source with
    | none => .err "source is required"
    | some src =>
      let filters := args.additional_filters.getD []
      let path := "data/" ++ src ++ ".csv"
      if path ∈ env.files then
        match env.readCsv path with
        | .error e => .err ("Error reading file: " ++ e)
        | .ok df =>
          let df := filterEngine df pn filters
          .filtered_data (limit_token_size (env.renderTable df) 800)
      else .err ("File " ++ src ++ ".csv not found")

/-- Response shape of `/query`: an error payload, the `{"message": ...}`
payload, or the JSON array of row records. -/
inductive QueryResponse where
  | err (msg : String)
  | message (msg : String)
  | records (rs : List Row)
deriving DecidableEq

/-- The outside world `/query` touches. -/
structure QueryEnv where
  files : List String
  readCsv : String → Except String Table

/-- `handle_query` (lines 145–197).  Result `Except.error` models an
exception escaping the handler: line 191 evaluates
`df['primary_name']`, which raises `KeyError` when the loaded table has
no such column and a location was matched; every other branch returns an
ordinary payload. -/
def handle_query (env : QueryEnv) (dataQuery : Option String) :
    Except String QueryResponse :=
  let query := pyLower (dataQuery.getD "")
  if query = "" then .ok (.err "Query is required")
  else
    match selected_source query with
    | none => .ok (.err "Could not determine data source from query.")
    | some src =>
      let ml := matched_location query
      let path := "public/agent_directory/" ++ src ++ ".csv"
      if path ∈ env.files then
        match env.readCsv path with
        | .error e => .ok (.err ("Failed to read CSV: " ++ e))
        | .ok df =>
          match ml with
          | some loc =>
            if "primary_name" ∈ df.cols then
              let fr := df.rows.filter
                (fun r => (r.get "primary_name").lowerStr == some loc)
              if fr = [] then .ok (.message "No results found.")
              else .ok (.records (fr.take 5))
            else .error "KeyError: primary_name"
          | none =>
            if df.rows = [] then .ok (.message "No results found.")
            else .ok (.records (df.rows.take 5))
      else .ok (.err (src ++ ".csv not found."))

/-- The nine optional call-log fields of a `/log-to-sheet` request body
(`none` = key absent from the dict). -/
structure CallLogData where
  call_time : Option String
  phone_number : Option String
  call_outcome : Option String
  customer_name : Option String
  room_name : Option String
  check_in : Option String
  check_out : Option String
  guests : Option String
  call_summary : Option String

/-- The outside world `/log-to-sheet` touches: the current timestamp
string, and the outcome of credential loading, `gspread.authorize`,
opening the spreadsheet, and appending the row (`.error e` = that call
raises an exception whose text is `e`). -/
structure SheetEnv where
  now : String
  credsResult : Except String Unit
  authorizeResult : Except String Unit
  openResult : Except String Unit
  appendResult : Except String Unit

/-- The row built at lines 125–135: each missing field becomes "NA",
except `call_time` which defaults to the current timestamp. -/
def callLogRow (env : SheetEnv) (d : CallLogData) : List String :=
  [d.call_time.getD env.now,
   d.phone_number.getD "NA",
   d.call_outcome.getD "NA",
   d.customer_name.getD "NA",
   d.room_name.getD "NA",
   d.check_in.getD "NA",
   d.check_out.getD "NA",
   d.guests.getD "NA",
   d.call_summary.getD "NA"]

/-- Response shape of `/log-to-sheet`. -/
inductive SheetResponse where
  | err (msg : String)
  | message (msg : String)
deriving DecidableEq

/-- `log_to_google_sheet` (lines 112–142).  Credential loading (line 116)
and `gspread.authorize` (line 117) run OUTSIDE any try/except, so their
failures escape the handler (`Except.error`); opening the sheet and
appending the row are wrapped in try/except and return error payloads. -/
def log_to_google_sheet (env : SheetEnv) (d : CallLogData) :
    Except String SheetResponse :=
  match env.credsResult with
  | .error e => .error e
  | .ok _ =>
    match env.authorizeResult with
    | .error e => .error e
    | .ok _ =>
      match env.openResult with
      | .error e => .ok (.err ("Could not open sheet: " ++ e))
      | .ok _ =>
        let _row := callLogRow env d
        match env.appendResult with
        | .error e => .ok (.err ("Error appending row: " ++ e))
        | .ok _ => .ok (.message "✅ Call log added successfully")

/-! ### Claim theorems -/

/-- C4: `limit_token_size` splits on whitespace, keeps the first `n`
tokens and rejoins with single spaces; the token count of its output is
`min (token count of the input) n`, and the output's token sequence is a
prefix of the input's token sequence in original order. -/
theorem C4_truncator_min_and_prefix (text : List Char) (n : Nat) :
    (words (limit_token_size text n)).length = min (words text).length n ∧
    words (limit_token_size text n) <+: words text := by
  rw [words_limit_token_size]
  constructor
  · rw [List.length_take, Nat.min_comm]
  · exact ⟨(words text).drop n, List.take_append_drop n (words text)⟩

lemma selected_source_eq_some_iff {q cat : String} :
    selected_source q = some cat ↔
      ∃ kws pre post, routing_map = pre ++ (cat, kws) :: post ∧
        kws.any (fun w => occursIn w q) ∧
        ∀ p ∈ pre, ¬ (p.2.any (fun w => occursIn w q)) := by
  unfold selected_source
  constructor
  · intro h
    rcases Option.map_eq_some'.mp h with ⟨b, hfind, hfst⟩
    rcases List.find?_eq_some.mp hfind with ⟨hpb, pre, post, hsplit, hprev⟩
    refine ⟨b.2, pre, post, ?_, hpb, fun p hp => by simpa using hprev p hp⟩
    rw [hsplit, ← hfst]
  · rintro ⟨kws, pre, post, hsplit, hmatch, hprev⟩
    have hfind : routing_map.find? (fun p => p.2.any (fun w => occursIn w q))
        = some (cat, kws) :=
      List.find?_eq_some.mpr ⟨hmatch, pre, post, hsplit,
        fun p hp => by simpa using hprev p hp⟩
    rw [hfind]; rfl

/-- C1: category selection lower-cases the query and returns category
`cat` exactly when some keyword of `cat`'s declared list occurs as a
substring of the lowered query while no category declared before `cat`
in `routing_map` has any occurring keyword (first match in declared
order stops the search); on the query "what is the room rate", which
contains both "room" and "rate", the selected category is
room-information. -/
theorem C1_router_first_match_in_declared_order :
    (∀ q cat : String,
      selected_source (pyLower q) = some cat ↔
        ∃ kws pre post, routing_map = pre ++ (cat, kws) :: post ∧
          (∃ w ∈ kws, occursIn w (pyLower q)) ∧
          ∀ p ∈ pre, ∀ w ∈ p.2, ¬ occursIn w (pyLower q)) ∧
    selected_source (pyLower "what is the room rate") = some "room-information" ∧
    route_query (some "what is the room rate") =
      .args "Sterling_Holidays" "room-information" [] := by
  refine ⟨fun q cat => ?_, by decide, by decide⟩
  rw [selected_source_eq_some_iff]
  constructor
  · rintro ⟨kws, pre, post, hsplit, hmatch, hprev⟩
    refine ⟨kws, pre, post, hsplit, List.any_eq_true.mp hmatch, ?_⟩
    intro p hp w hw hocc
    exact hprev p hp (List.any_eq_true.mpr ⟨w, hw, hocc⟩)
  · rintro ⟨kws, pre, post, hsplit, hmatch, hprev⟩
    refine ⟨kws, pre, post, hsplit, List.any_eq_true.mpr hmatch, ?_⟩
    intro p hp hany
    rcases List.any_eq_true.mp hany with ⟨w, hw, hocc⟩
    exact hprev p hp w hw hocc

/-- C2: whenever the (lowered) query matches some category, the `/route`
response is exactly the `args` object with the fixed literal
"Sterling_Holidays" as primary_name, the selected category as source and
an empty additional_filters list, whatever location was detected. -/
theorem C2_route_success_shape (dataQuery : Option String) (cat : String)
    (h : selected_source (pyLower (dataQuery.getD "")) = some cat) :
    route_query dataQuery = .args "Sterling_Holidays" cat [] := by
  have hq : pyLower (dataQuery.getD "") ≠ "" := by
    intro hq
    rw [hq] at h
    have : selected_source "" = none := by decide
    rw [this] at h
    exact Option.noConfusion h
  simp [route_query, hq, h]

/-- C2 witness: the spec's end-to-end example, `{"query": "checkin
policy"}` routes to the rules category. -/
theorem C2_route_success_shape_witness :
    route_query (some "checkin policy") = .args "Sterling_Holidays" "rules" [] :=
  C2_route_success_shape (some "checkin policy") "rules" (by decide)

/-- C9: a `/filter` request missing a required field is answered with
`{"error": "<field> is required"}` for the first missing field in the
declared order primary_name, source. -/
theorem C9_required_field_errors (env : FilterEnv) (args : FilterArgs) :
    (args.primary_name = none →
      filter_information env args = .err "primary_name is required") ∧
    (∀ pn, args.primary_name = some pn → args.source = none →
      filter_information env args = .err "source is required") := by
  constructor
  · intro h; simp [filter_information, h]
  · intro pn h hs; simp [filter_information, h, hs]

/-- A `/filter` environment with no files, for concrete evaluations. -/
def emptyFilterEnv : FilterEnv :=
  ⟨[], fun _ => .error "unused", fun _ => []⟩

/-- C9 witness: with both fields absent the first declared field is
reported. -/
theorem C9_required_field_errors_witness :
    filter_information emptyFilterEnv ⟨none, none, none⟩ =
      .err "primary_name is required" :=
  (C9_required_field_errors emptyFilterEnv ⟨none, none, none⟩).1 rfl

/-- C10: a request body without a "query" key behaves exactly as an
empty query string on `/route` and `/query`: the missing key defaults to
the empty string, so both endpoints answer
`{"error": "Query is required"}`. -/
theorem C10_absent_query_key_defaults_empty :
    route_query none = .err "Query is required" ∧
    route_query none = route_query (some "") ∧
    ∀ env : QueryEnv,
      handle_query env none = .ok (.err "Query is required") ∧
      handle_query env none = handle_query env (some "") := by
  refine ⟨by decide, by decide, fun env => ⟨?_, ?_⟩⟩ <;>
    simp [handle_query, show (pyLower "" = "") from rfl]

/-- C3: the equality filter engine preserves the column list and row
order, skips the mandatory primary_name condition when the table has no
primary_name column, applies each additional condition only when its
column exists, and keeps exactly the rows on which every applied
condition holds under the engine's equality (`primaryPred` and
`condPred` are literally "compare if the column exists, else accept"). -/
theorem C3_engine_is_conjunctive_filter (t : Table) (pn : Value) (fs : List Cond) :
    (filterEngine t pn fs).cols = t.cols ∧
    (filterEngine t pn fs).rows = t.rows.filter
      (fun r => primaryPred t.cols pn r && fs.all (fun f => condPred t.cols f r)) :=
  ⟨filterEngine_cols t pn fs, filterEngine_rows t pn fs⟩

/-- C8: the equality filter engine is idempotent: running it again with
the same primary_name value and the same condition list returns the
first run's table unchanged. -/
theorem C8_engine_idempotent (t : Table) (pn : Value) (fs : List Cond) :
    filterEngine (filterEngine t pn fs) pn fs = filterEngine t pn fs := by
  apply Table.ext'
  · rw [filterEngine_cols, filterEngine_cols]
  · rw [filterEngine_rows, filterEngine_cols, filterEngine_rows, List.filter_filter]
    apply List.filter_congr
    intro r _
    rw [Bool.and_self]

deriving instance DecidableEq for Except

/-- A `/query` environment with no files, for concrete evaluations. -/
def noFileQueryEnv : QueryEnv := ⟨[], fun _ => .error "unused"⟩

/-- C6 counterexample: for the query "room" with no backing file, the
`/query` endpoint's message is "room-information.csv not found." — it
contains the source name, but its trailing period means it does NOT end
with the literal suffix ".csv not found" as the claim states. -/
theorem C6_counterexample_trailing_period :
    handle_query noFileQueryEnv (some "room") =
      .ok (.err "room-information.csv not found.") ∧
    ¬ ((".csv not found").data <:+ ("room-information.csv not found.").data) := by
  constructor
  · decide
  · decide

/-- C6 amended: on a missing backing file both endpoints echo the source
name followed by ".csv not found" in the error message; the `/filter`
message "File <source>.csv not found" ends with that literal, while the
`/query` message "<source>.csv not found." carries a trailing period,
so there the literal occurs but is not a suffix. -/
theorem C6_amended_missing_file_messages :
    (∀ (env : FilterEnv) (args : FilterArgs) (pn : Value) (src : String),
      args.primary_name = some pn → args.source = some src →
      ("data/" ++ src ++ ".csv") ∉ env.files →
      filter_information env args = .err ("File " ++ src ++ ".csv not found") ∧
      src.data <:+: ("File " ++ src ++ ".csv not found").data ∧
      (".csv not found").data <:+ ("File " ++ src ++ ".csv not found").data) ∧
    (∀ (env : QueryEnv) (dataQuery : Option String) (cat : String),
      selected_source (pyLower (dataQuery.getD "")) = some cat →
      ("public/agent_directory/" ++ cat ++ ".csv") ∉ env.files →
      handle_query env dataQuery = .ok (.err (cat ++ ".csv not found.")) ∧
      cat.data <:+: (cat ++ ".csv not found.").data ∧
      (".csv not found").data <:+: (cat ++ ".csv not found.").data) := by
  constructor
  · intro env args pn src h1 h2 h3
    refine ⟨by simp [filter_information, h1, h2, h3], ?_, ?_⟩
    · exact ⟨("File ").data, (".csv not found").data, by simp⟩
    · exact ⟨("File " ++ src).data, by simp⟩
  · intro env dataQuery cat hsel hnofile
    have hq : pyLower (dataQuery.getD "") ≠ "" := by
      intro hq
      rw [hq] at hsel
      have : selected_source "" = none := by decide
      rw [this] at hsel
      exact Option.noConfusion hsel
    refine ⟨by simp [handle_query, hq, hsel, hnofile], ?_, ?_⟩
    · exact ⟨[], (".csv not found.").data, by simp⟩
    · have hx : (".csv not found").data ++ (".").data = (".csv not found.").data := by
        decide
      exact ⟨cat.data, (".").data, by rw [List.append_assoc, hx]; simp⟩

/-- C6 amended witness: the spec's own example, `/filter` with source
"missing" and no backing file. -/
theorem C6_amended_missing_file_messages_witness :
    filter_information emptyFilterEnv ⟨some (.str "X"), some "missing", none⟩ =
      .err "File missing.csv not found" :=
  ((C6_amended_missing_file_messages).1 emptyFilterEnv
    ⟨some (.str "X"), some "missing", none⟩ (.str "X") "missing" rfl rfl
    (by decide)).1

/-- A `/log-to-sheet` environment whose credential loading raises. -/
def credsFailEnv : SheetEnv :=
  ⟨"2025-01-01 00:00:00", .error "creds.json missing", .ok (), .ok (), .ok ()⟩

/-- An empty call-log request body. -/
def emptyCallLog : CallLogData :=
  ⟨none, none, none, none, none, none, none, none, none⟩

/-- C5 counterexample: when credential loading fails, the exception
escapes `log_to_google_sheet` (lines 116–117 run outside any
try/except), so the failure is NOT converted to an `{"error": ...}`
payload, contradicting the claim. -/
theorem C5_counterexample_creds_uncaught :
    log_to_google_sheet credsFailEnv emptyCallLog =
      .error "creds.json missing" := rfl

/-- C5 amended: inside `/log-to-sheet`, sheet-open and row-append
failures are caught and converted to `{"error": "<message>"}` payloads,
and the success path returns a payload; but credential-loading and
authorization failures propagate out of the handler as raised
exceptions. -/
theorem C5_amended_error_containment (env : SheetEnv) (d : CallLogData) :
    (∀ e, env.credsResult = .error e →
      log_to_google_sheet env d = .error e) ∧
    (∀ e, env.credsResult = .ok () → env.authorizeResult = .error e →
      log_to_google_sheet env d = .error e) ∧
    (∀ e, env.credsResult = .ok () → env.authorizeResult = .ok () →
      env.openResult = .error e →
      log_to_google_sheet env d = .ok (.err ("Could not open sheet: " ++ e))) ∧
    (∀ e, env.credsResult = .ok () → env.authorizeResult = .ok () →
      env.openResult = .ok () → env.appendResult = .error e →
      log_to_google_sheet env d = .ok (.err ("Error appending row: " ++ e))) ∧
    (env.credsResult = .ok () → env.authorizeResult = .ok () →
      ∃ r, log_to_google_sheet env d = .ok r) := by
  refine ⟨?_, ?_, ?_, ?_, ?_⟩
  · intro e h; simp [log_to_google_sheet, h]
  · intro e h1 h2; simp [log_to_google_sheet, h1, h2]
  · intro e h1 h2 h3; simp [log_to_google_sheet, h1, h2, h3]
  · intro e h1 h2 h3 h4; simp [log_to_google_sheet, h1, h2, h3, h4]
  · intro h1 h2
    cases h3 : env.openResult with
    | error e => exact ⟨.err ("Could not open sheet: " ++ e),
        by simp [log_to_google_sheet, h1, h2, h3]⟩
    | ok u =>
      cases h4 : env.appendResult with
      | error e => exact ⟨.err ("Error appending row: " ++ e),
          by simp [log_to_google_sheet, h1, h2, h3, h4]⟩
      | ok v => exact ⟨.message "✅ Call log added successfully",
          by simp [log_to_google_sheet, h1, h2, h3, h4]⟩

/-- A `/log-to-sheet` environment where everything external succeeds. -/
def okSheetEnv : SheetEnv :=
  ⟨"2025-01-01 00:00:00", .ok (), .ok (), .ok (), .ok ()⟩

/-- C5 amended witness: with working credentials and a failing sheet
open, the failure is returned as an error payload. -/
theorem C5_amended_error_containment_witness :
    log_to_google_sheet
        ⟨"2025-01-01 00:00:00", .ok (), .ok (), .error "boom", .ok ()⟩
        emptyCallLog =
      .ok (.err ("Could not open sheet: " ++ "boom")) :=
  (C5_amended_error_containment
    ⟨"2025-01-01 00:00:00", .ok (), .ok (), .error "boom", .ok ()⟩
    emptyCallLog).2.2.1 "boom" rfl rfl rfl

/-- C7: on `/query`, with a routed category and a successfully loaded
table: when a known location was detected the rows are filtered by
case-insensitive equality of the primary_name cell against the detected
location (the cell is lowered by the code; the location, drawn from the
all-lowercase `known_locations` list, equals its own lowering); with no
detected location all rows are kept; an empty result yields
`{"message": "No results found."}`, otherwise the first 5 matching rows
are returned as records. -/
theorem C7_query_location_filtering (env : QueryEnv) (dataQuery : Option String)
    (cat : String) (t : Table)
    (hsel : selected_source (pyLower (dataQuery.getD "")) = some cat)
    (hfile : ("public/agent_directory/" ++ cat ++ ".csv") ∈ env.files)
    (hread : env.readCsv ("public/agent_directory/" ++ cat ++ ".csv") = .ok t) :
    (∀ loc, matched_location (pyLower (dataQuery.getD "")) = some loc →
      "primary_name" ∈ t.cols →
      handle_query env dataQuery = .ok (
        if t.rows.filter
            (fun r => (r.get "primary_name").lowerStr == some (pyLower loc)) = []
        then .message "No results found."
        else .records ((t.rows.filter
          (fun r => (r.get "primary_name").lowerStr == some (pyLower loc))).take 5))) ∧
    (matched_location (pyLower (dataQuery.getD "")) = none →
      handle_query env dataQuery = .ok (
        if t.rows = [] then .message "No results found."
        else .records (t.rows.take 5))) := by
  have hq : pyLower (dataQuery.getD "") ≠ "" := by
    intro hq
    rw [hq] at hsel
    have : selected_source "" = none := by decide
    rw [this] at hsel
    exact Option.noConfusion hsel
  constructor
  · intro loc hloc hcol
    have hmem : loc ∈ known_locations := List.mem_of_find?_eq_some hloc
    have hlow : pyLower loc = loc := by
      have : loc = "sterling kodai lake" ∨ loc = "sterling holidays" := by
        simpa [known_locations] using hmem
      rcases this with h | h <;> subst h <;> decide
    rw [hlow]
    simp [handle_query, hq, hsel, hfile, hread, hloc, hcol]
    rw [apply_ite Except.ok]
  · intro hnone
    simp [handle_query, hq, hsel, hfile, hread, hnone]
    rw [apply_ite Except.ok]

/-- A sample row, table and environment backing the room-information
category, for the C7 witness. -/
def qrow : Row :=
  [("primary_name", Value.str "Sterling Holidays"),
   ("resort", Value.str "Kodai Lake")]

def qtable : Table := ⟨["primary_name", "resort"], [qrow]⟩

def qEnv : QueryEnv :=
  ⟨["public/agent_directory/room-information.csv"],
   fun p => if p = "public/agent_directory/room-information.csv"
            then .ok qtable else .error "unused"⟩

/-- C7 witness: the query "room at sterling holidays" routes to
room-information, detects the location, and the one matching row comes
back as a record. -/
theorem C7_query_location_filtering_witness :
    handle_query qEnv (some "room at sterling holidays") = .ok (.records [qrow]) := by
  have h := (C7_query_location_filtering qEnv (some "room at sterling holidays")
      "room-information" qtable (by decide) (by decide) (by decide)).1
      "sterling holidays" (by decide) (by decide)
  rw [h]
  decide
